import Mathlib

/-!
Shallow embedding of the Quote-Notifier-Service repository
(src/ingest.py, src/apirequest.py, src/subscribers.py) and proofs of the
frozen claims about it.  Machine strings are Lean strings, dataframe cells
are `Option String` (none models NaN), timestamps are `Int`, fallible code
returns `Except`/`Option`, and side effects (database queries, inserts,
message sends) are recorded explicitly in the result values.
-/

/- ================= src/subscribers.py ================= -/

/-- Embedding of mask_phone (src/subscribers.py lines 38-41): strings of
length greater than 4 are masked to three asterisks followed by the last
four characters (the Python slice phone_number[-4:]); shorter strings
become four asterisks. -/
def mask_phone (phone_number : String) : String :=
  if 4 < phone_number.data.length then
    "***" ++ String.mk (phone_number.data.drop (phone_number.data.length - 4))
  else
    "****"

/-- Python truthiness of an optional string configuration value read by
os.getenv: None and the empty string are falsy, every other string truthy.
Used by the all([...]) validation at src/subscribers.py line 96. -/
def envTruthy : Option String → Bool
  | none => false
  | some s => !s.isEmpty

/-- Embedding of the contact-list construction at src/subscribers.py
line 35: split the CONTACTS value on commas and strip each piece. -/
def contact_list (recepients : String) : List String :=
  (recepients.splitOn ",").map (·.trim)

/-- Configuration of the WhatsApp broadcaster, one field per environment
variable read at src/subscribers.py lines 29-32; none models an unset
variable. -/
structure WaConfig where
  google_form : Option String
  recepients : Option String
  message_template : Option String
  sender_name : Option String
deriving DecidableEq, Repr

/-- Observable outcome of one run of src/subscribers.py.  importCrash is
the unhandled AttributeError raised at line 35 when CONTACTS is unset
(None.split), before any logging or sending; abortNoConfig is the
validation failure at lines 96-98 (error logged, no send attempted);
completed carries the list of contacts for which a send was attempted and
the success and failure counters of send_messages. -/
inductive WaOutcome where
  | importCrash
  | abortNoConfig
  | completed (attempted : List String) (success_count failed_count : Nat)
deriving DecidableEq, Repr

/-- Send loop of send_messages (src/subscribers.py lines 61-85): one
attempt per contact, the oracle sendOk gives the outcome of the
kit.sendwhatmsg_instantly call for each index; an exception increments the
failure counter and the loop continues. -/
def send_messages_loop (sendOk : Nat → Bool) (contacts : List String) : Nat × Nat :=
  (List.range contacts.length).foldl
    (fun acc i => if sendOk i then (acc.1 + 1, acc.2) else (acc.1, acc.2 + 1))
    (0, 0)

/-- Embedding of one run of src/subscribers.py: module level first builds
contact_list from CONTACTS (crashing when it is unset), then the main
guard validates all four configuration values by Python truthiness and
either logs an error and stops or runs send_messages. -/
def subscribers_run (cfg : WaConfig) (sendOk : Nat → Bool) : WaOutcome :=
  match cfg.recepients with
  | none => .importCrash
  | some r =>
    let contacts := contact_list r
    if envTruthy cfg.google_form && envTruthy (some r) &&
       envTruthy cfg.message_template && envTruthy cfg.sender_name then
      let counts := send_messages_loop sendOk contacts
      .completed contacts counts.1 counts.2
    else
      .abortNoConfig

/-- Contacts for which a send was attempted in an outcome. -/
def attemptedContacts : WaOutcome → List String
  | .completed c _ _ => c
  | _ => []

/-- Whether the run emitted the explicit missing-configuration error log
(src/subscribers.py lines 97-98).  The module-level crash emits no such
log; a completed run does not either. -/
def loggedConfigError : WaOutcome → Bool
  | .abortNoConfig => true
  | _ => false

/- ================= theorems: C8, C7 ================= -/

/-- C8: for every input string s, if s has more than 4 characters then
mask_phone s is three asterisks followed by exactly the last 4 characters
of s (s decomposes as pre ++ suf with suf of length 4 and the output is
three asterisks then suf); if s has at most 4 characters the output is
four asterisks. -/
theorem mask_phone_spec (s : String) :
    (4 < s.data.length →
      ∃ pre suf : List Char, s.data = pre ++ suf ∧ suf.length = 4 ∧
        mask_phone s = "***" ++ String.mk suf) ∧
    (s.data.length ≤ 4 → mask_phone s = "****") := by
  constructor
  · intro h
    refine ⟨s.data.take (s.data.length - 4), s.data.drop (s.data.length - 4), ?_, ?_, ?_⟩
    · exact (List.take_append_drop _ _).symm
    · rw [List.length_drop]
      omega
    · unfold mask_phone
      rw [if_pos h]
  · intro h
    unfold mask_phone
    rw [if_neg (Nat.not_lt.mpr h)]

/-- Witness for mask_phone_spec: both branches at concrete inputs. -/
theorem mask_phone_spec_witness :
    (∃ pre suf : List Char, "12345".data = pre ++ suf ∧ suf.length = 4 ∧
        mask_phone "12345" = "***" ++ String.mk suf) ∧
    mask_phone "ab" = "****" :=
  ⟨(mask_phone_spec "12345").1 (by decide), (mask_phone_spec "ab").2 (by decide)⟩

/-- C7 counterexample: with the recipient list absent and every other
configuration value present, the run crashes at module level while
building contact_list, before the validation at line 96 ever executes:
no explicit error is logged, refuting the claim that any absent
configuration value leads to one explicit logged error. -/
theorem subscribers_missing_contacts_no_logged_error :
    (WaConfig.mk (some "http://f") none (some "Hi") (some "Bot")).recepients = none ∧
    subscribers_run (WaConfig.mk (some "http://f") none (some "Hi") (some "Bot"))
      (fun _ => true) = .importCrash ∧
    loggedConfigError (subscribers_run
      (WaConfig.mk (some "http://f") none (some "Hi") (some "Bot"))
      (fun _ => true)) = false := by
  refine ⟨rfl, rfl, rfl⟩

/-- C7 amended: when the recipient list is present but any of the other
three configuration values is absent or empty (or the recipient list
itself is the empty string), the run aborts at the validation check with
the explicit logged error and no message is dispatched to any contact;
when the recipient list is absent the script instead crashes at module
level with an unhandled AttributeError before any send, without emitting
the explicit logged error. -/
theorem subscribers_config_validation (cfg : WaConfig) (sendOk : Nat → Bool) :
    (∀ r, cfg.recepients = some r →
      (envTruthy cfg.google_form && envTruthy (some r) &&
       envTruthy cfg.message_template && envTruthy cfg.sender_name) = false →
      subscribers_run cfg sendOk = .abortNoConfig ∧
      attemptedContacts (subscribers_run cfg sendOk) = [] ∧
      loggedConfigError (subscribers_run cfg sendOk) = true) ∧
    (cfg.recepients = none →
      subscribers_run cfg sendOk = .importCrash ∧
      attemptedContacts (subscribers_run cfg sendOk) = [] ∧
      loggedConfigError (subscribers_run cfg sendOk) = false) := by
  constructor
  · intro r hr hv
    have hrun : subscribers_run cfg sendOk = .abortNoConfig := by
      unfold subscribers_run
      rw [hr]
      simp only [hv, Bool.false_eq_true, if_false]
    exact ⟨hrun, by rw [hrun]; rfl, by rw [hrun]; rfl⟩
  · intro hr
    have hrun : subscribers_run cfg sendOk = .importCrash := by
      unfold subscribers_run
      rw [hr]
    exact ⟨hrun, by rw [hrun]; rfl, by rw [hrun]; rfl⟩

/-- Witness for subscribers_config_validation: a configuration with the
message template unset aborts with the logged error and attempts no send. -/
theorem subscribers_config_validation_witness :
    subscribers_run (WaConfig.mk (some "http://f") (some "111,222") none (some "Bot"))
      (fun _ => true) = .abortNoConfig ∧
    attemptedContacts (subscribers_run
      (WaConfig.mk (some "http://f") (some "111,222") none (some "Bot"))
      (fun _ => true)) = [] ∧
    loggedConfigError (subscribers_run
      (WaConfig.mk (some "http://f") (some "111,222") none (some "Bot"))
      (fun _ => true)) = true :=
  (subscribers_config_validation
    (WaConfig.mk (some "http://f") (some "111,222") none (some "Bot"))
    (fun _ => true)).1 "111,222" rfl (by decide)

/- ================= src/apirequest.py ================= -/

/-- One quote object of the ZenQuotes JSON response: field q is the quote
text, field a the author (src/apirequest.py lines 107-108). -/
structure Quote where
  q : String
  a : String
deriving DecidableEq, Repr

/-- Outcome of the requests.get call in get_random_quote: a response with
a status code and a parsed JSON body (a list of quote objects), a timeout,
or any other exception (connection error, JSON decode error, missing
field). -/
inductive HttpOutcome where
  | response (status : Nat) (body : List Quote)
  | timeout
  | exn
deriving DecidableEq, Repr

/-- Fixed fallback quote of get_random_quote (src/apirequest.py lines
114, 120, 123). -/
def fallback_quote : String :=
  "Believe you can and you" ++ String.mk [Char.ofNat 39] ++
  "re halfway there. - Theodore Roosevelt"

/-- Embedding of get_random_quote (src/apirequest.py lines 94-123).  On
status 200 it reads the first element of the JSON array and formats it;
indexing an empty array raises IndexError, which the generic except
clause turns into the fallback.  Every non-200 status, timeout or other
exception also yields the fallback.  The function is total: no path
raises. -/
def get_random_quote : HttpOutcome → String
  | .response status body =>
    if status = 200 then
      match body with
      | [] => fallback_quote
      | q0 :: _ => "\"" ++ q0.q ++ "\" - " ++ q0.a
    else fallback_quote
  | .timeout => fallback_quote
  | .exn => fallback_quote

/-- A subscriber row returned by get_subscribers: first name, last name,
email (src/apirequest.py lines 64-79). -/
structure Subscriber where
  first_name : String
  last_name : String
  email : String
deriving DecidableEq, Repr

/-- Success and failure counters of the per-subscriber loop of main
(src/apirequest.py lines 219-236): sendResult i is the boolean returned
by send_email for the subscriber at index i; a true result increments
success_count, and no branch increments failed_count. -/
def emailer_counts (sendResult : Nat → Bool) (n : Nat) : Nat × Nat :=
  (List.range n).foldl
    (fun acc i => if sendResult i then (acc.1 + 1, acc.2) else acc)
    (0, 0)

/-- Final summary logged by main (src/apirequest.py lines 244-248):
subscriber count, the two counters, and the denominator used by the
success-rate division success_count / len(subscribers). -/
structure EmailSummary where
  totalSubs : Nat
  success_count : Nat
  failed_count : Nat
  rateDenominator : Nat
deriving DecidableEq, Repr

/-- Embedding of main (src/apirequest.py lines 197-250): when
get_subscribers yields an empty list main returns early (no loop, no
summary, no division); otherwise it runs the send loop and logs the
summary, whose success rate divides by the subscriber count. -/
def emailer_main (subscribers : List Subscriber) (sendResult : Nat → Bool) :
    Option EmailSummary :=
  if subscribers.isEmpty then
    none
  else
    let counts := emailer_counts sendResult subscribers.length
    some ⟨subscribers.length, counts.1, counts.2, subscribers.length⟩

/- ================= theorems: C4, C3, C10 ================= -/

/-- C4: get_random_quote returns the quoted text and author built from
the first element of the JSON body on status 200 with a nonempty body,
and returns exactly the fixed fallback string on any non-200 status, on
timeout, and on any other exception; being a total Lean function into
String, it raises on no path. -/
theorem get_random_quote_spec (o : HttpOutcome) :
    (∀ q0 rest, o = .response 200 (q0 :: rest) →
      get_random_quote o = "\"" ++ q0.q ++ "\" - " ++ q0.a) ∧
    (∀ status body, o = .response status body → status ≠ 200 →
      get_random_quote o = fallback_quote) ∧
    (o = .timeout → get_random_quote o = fallback_quote) ∧
    (o = .exn → get_random_quote o = fallback_quote) := by
  refine ⟨?_, ?_, ?_, ?_⟩
  · intro q0 rest h
    subst h
    rfl
  · intro status body h hs
    subst h
    simp only [get_random_quote]
    rw [if_neg hs]
  · intro h; subst h; rfl
  · intro h; subst h; rfl

/-- Witness for get_random_quote_spec: a 200 response with one quote and
a 503 response, both at concrete inputs. -/
theorem get_random_quote_spec_witness :
    get_random_quote (.response 200 [Quote.mk "Go" "Ada"]) = "\"Go\" - Ada" ∧
    get_random_quote (.response 503 []) = fallback_quote :=
  ⟨(get_random_quote_spec (.response 200 [Quote.mk "Go" "Ada"])).1
      (Quote.mk "Go" "Ada") [] rfl,
   (get_random_quote_spec (.response 503 [])).2.1 503 [] rfl (by decide)⟩

/-- Helper: the emailer fold counts true send results into the first
component and never touches the second. -/
theorem emailer_counts_foldl (sendResult : Nat → Bool) (l : List Nat)
    (s f : Nat) :
    l.foldl (fun acc i => if sendResult i then (acc.1 + 1, acc.2) else acc) (s, f) =
      (s + l.countP (fun i => sendResult i), f) := by
  induction l generalizing s f with
  | nil => simp
  | cons a l ih =>
    simp only [List.foldl_cons, List.countP_cons]
    by_cases h : sendResult a
    · rw [if_pos h, ih]
      simp [h]
      omega
    · rw [if_neg h, ih]
      simp [h]

/-- C3: for every run of the emailer main loop, whatever the mix of send
outcomes, the reported failure count is 0 and the reported success count
equals the number of successful sends (the count of indices whose
send_email call returned true). -/
theorem emailer_failed_count_never_incremented
    (subscribers : List Subscriber) (sendResult : Nat → Bool)
    (summary : EmailSummary)
    (h : emailer_main subscribers sendResult = some summary) :
    summary.failed_count = 0 ∧
    summary.success_count =
      (List.range subscribers.length).countP (fun i => sendResult i) := by
  unfold emailer_main at h
  by_cases he : subscribers.isEmpty
  · rw [if_pos he] at h
    exact absurd h (by simp)
  · rw [if_neg he] at h
    have hc : emailer_counts sendResult subscribers.length =
        ((List.range subscribers.length).countP (fun i => sendResult i), 0) := by
      unfold emailer_counts
      rw [emailer_counts_foldl]
      simp
    rw [hc] at h
    cases h
    exact ⟨rfl, rfl⟩

/-- Witness for emailer_failed_count_never_incremented: one subscriber
whose send succeeds gives success count 1 and failure count 0. -/
theorem emailer_failed_count_never_incremented_witness :
    (EmailSummary.mk 1 1 0 1).failed_count = 0 ∧
    (EmailSummary.mk 1 1 0 1).success_count =
      (List.range [Subscriber.mk "Ada" "Lovelace" "ada@x.com"].length).countP
        (fun _ => (true : Bool)) :=
  emailer_failed_count_never_incremented
    [Subscriber.mk "Ada" "Lovelace" "ada@x.com"] (fun _ => true)
    (EmailSummary.mk 1 1 0 1) rfl

/-- C10: the success-rate division of the final summary is evaluated only
when the subscriber list is nonempty, because main returns early on an
empty list; whenever a summary is produced its denominator is the
subscriber count and is strictly positive, so the division never divides
by zero. -/
theorem emailer_rate_denominator_pos
    (subscribers : List Subscriber) (sendResult : Nat → Bool)
    (summary : EmailSummary)
    (h : emailer_main subscribers sendResult = some summary) :
    summary.rateDenominator = subscribers.length ∧
    0 < summary.rateDenominator := by
  unfold emailer_main at h
  by_cases he : subscribers.isEmpty
  · rw [if_pos he] at h
    exact absurd h (by simp)
  · rw [if_neg he] at h
    cases h
    refine ⟨rfl, ?_⟩
    simp only []
    have : subscribers ≠ [] := by
      intro hnil
      rw [hnil] at he
      exact he rfl
    exact List.length_pos.mpr this

/-- Witness for emailer_rate_denominator_pos at one concrete subscriber. -/
theorem emailer_rate_denominator_pos_witness :
    (EmailSummary.mk 1 1 0 1).rateDenominator =
      [Subscriber.mk "Ada" "Lovelace" "ada@x.com"].length ∧
    0 < (EmailSummary.mk 1 1 0 1).rateDenominator :=
  emailer_rate_denominator_pos
    [Subscriber.mk "Ada" "Lovelace" "ada@x.com"] (fun _ => true)
    (EmailSummary.mk 1 1 0 1) rfl

/- ================= src/ingest.py : load_csv_to_clickhouse ================= -/

/-- Database side effects of load_csv_to_clickhouse, in order.  The
clickhouse_driver Client constructed at line 142 connects lazily, so the
first network side effect is the first executed query; existsQuery is the
EXISTS TABLE query (line 152), maxQuery the SELECT max query (line 156),
and insert a batch INSERT with its rows (line 203). -/
inductive DbEvent where
  | existsQuery
  | maxQuery
  | insert (rows : List (List Int))
deriving DecidableEq, Repr

/-- One CSV chunk produced by pd.read_csv(..., chunksize=batch_size)
(src/ingest.py line 175): column names and rows; cells are modelled as
Int, the timestamp cell being the point of comparison after
pd.to_datetime. -/
structure Chunk where
  cols : List String
  rows : List (List Int)
deriving DecidableEq, Repr

/-- Python falsiness of the timestamp_column argument at line 147: None
or the empty string. -/
def tsColMissing : Option String → Bool
  | none => true
  | some s => s.isEmpty

/-- Watermark acquisition (src/ingest.py lines 150-167): run the EXISTS
query; if it fails, warn and use no watermark; if the table is absent use
no watermark; otherwise run the max query, again falling back to no
watermark on failure.  Returns the watermark (none models NULL or a
failed/skipped query, matching the falsy check at line 178 for the
DateTime values the driver returns) together with the queries executed. -/
def getMaxTimestamp (existsRes : Except Unit Bool)
    (maxRes : Except Unit (Option Int)) : Option Int × List DbEvent :=
  match existsRes with
  | .error _ => (none, [.existsQuery])
  | .ok false => (none, [.existsQuery])
  | .ok true =>
    match maxRes with
    | .error _ => (none, [.existsQuery, .maxQuery])
    | .ok v => (v, [.existsQuery, .maxQuery])

/-- Timestamp cell of a row: the value in the column named tcol
(chunk[timestamp_column] at line 185 selects by label). -/
def chunkTs (cols : List String) (tcol : String) (row : List Int) : Int :=
  match cols.findIdx? (fun c => c == tcol) with
  | some i => row.getD i 0
  | none => 0

/-- Per-chunk filtering (src/ingest.py lines 177-190): when incremental
mode is on, the watermark is truthy and the timestamp column is among the
chunk columns, keep only rows strictly above the watermark and count the
dropped rows as skipped; otherwise the chunk passes through untouched
with no skips. -/
def processChunk (incremental : Bool) (maxTs : Option Int) (tcol : String)
    (c : Chunk) : List (List Int) × Nat :=
  if incremental && maxTs.isSome && c.cols.contains tcol then
    let kept := c.rows.filter (fun r => decide (maxTs.getD 0 < chunkTs c.cols tcol r))
    (kept, c.rows.length - kept.length)
  else
    (c.rows, 0)

/-- Chunk loop of load_csv_to_clickhouse (src/ingest.py lines 175-205):
for each chunk, apply the incremental filter, skip empty batches entirely
(lines 188-190 and 195-196: no insert call), otherwise insert the batch
and add its size to total_rows.  Returns (total_rows, skipped_rows,
events). -/
def runChunks (incremental : Bool) (maxTs : Option Int) (tcol : String) :
    List Chunk → Nat × Nat × List DbEvent
  | [] => (0, 0, [])
  | c :: cs =>
    let pc := processChunk incremental maxTs tcol c
    let rest := runChunks incremental maxTs tcol cs
    if pc.1.isEmpty then (rest.1, pc.2 + rest.2.1, rest.2.2)
    else (pc.1.length + rest.1, pc.2 + rest.2.1, .insert pc.1 :: rest.2.2)

/-- Result of one invocation of load_csv_to_clickhouse: the ordered
database side effects and either the final (total_rows, skipped_rows)
counters or the raised error. -/
structure LoadOutcome where
  events : List DbEvent
  result : Except String (Nat × Nat)
deriving Repr

/-- Embedding of load_csv_to_clickhouse (src/ingest.py lines 132-216).
In incremental mode a falsy timestamp_column raises ValueError at line
148 before any query or insert; otherwise the watermark is acquired (in
incremental mode only) and the chunk loop runs. -/
def load_csv_to_clickhouse (incremental : Bool) (timestamp_column : Option String)
    (existsRes : Except Unit Bool) (maxRes : Except Unit (Option Int))
    (chunks : List Chunk) : LoadOutcome :=
  if incremental && tsColMissing timestamp_column then
    ⟨[], .error "timestamp_column must be specified when incremental=True"⟩
  else
    let wat := if incremental then getMaxTimestamp existsRes maxRes else (none, [])
    let run := runChunks incremental wat.1 (timestamp_column.getD "") chunks
    ⟨wat.2 ++ run.2.2, .ok (run.1, run.2.1)⟩

/-- Rows inserted over a list of database events, in order. -/
def insertedRows : List DbEvent → List (List Int)
  | [] => []
  | .insert rs :: evs => rs ++ insertedRows evs
  | .existsQuery :: evs => insertedRows evs
  | .maxQuery :: evs => insertedRows evs

/-- Rows of the given chunks whose timestamp is strictly above T, in
order: the rows the spec says an incremental load must insert. -/
def newRows (T : Int) (tcol : String) : List Chunk → List (List Int)
  | [] => []
  | ch :: cs =>
    ch.rows.filter (fun r => decide (T < chunkTs ch.cols tcol r)) ++ newRows T tcol cs

/-- Number of rows of the given chunks whose timestamp is at most T: the
rows the spec says an incremental load must count as skipped. -/
def staleCount (T : Int) (tcol : String) : List Chunk → Nat
  | [] => 0
  | ch :: cs =>
    ch.rows.countP (fun r => decide (chunkTs ch.cols tcol r ≤ T)) + staleCount T tcol cs

/-- All rows of the given chunks, in order. -/
def allChunkRows : List Chunk → List (List Int)
  | [] => []
  | ch :: cs => ch.rows ++ allChunkRows cs

/- ================= theorems: C6, C1, C9 ================= -/

/-- C6: invoking the loader with incremental mode on and a falsy
timestamp_column (None or empty) raises the ValueError of line 148 before
any database side effect: the event trace is empty, so no query is
executed — and since the clickhouse_driver client connects lazily on the
first query, no warehouse connection is opened — and no row is inserted. -/
theorem load_incremental_requires_timestamp_column
    (timestamp_column : Option String) (existsRes : Except Unit Bool)
    (maxRes : Except Unit (Option Int)) (chunks : List Chunk)
    (h : tsColMissing timestamp_column = true) :
    load_csv_to_clickhouse true timestamp_column existsRes maxRes chunks =
      ⟨[], .error "timestamp_column must be specified when incremental=True"⟩ := by
  unfold load_csv_to_clickhouse
  rw [if_pos (by simp [h])]

/-- Witness for load_incremental_requires_timestamp_column with an unset
timestamp column and one nonempty chunk. -/
theorem load_incremental_requires_timestamp_column_witness :
    load_csv_to_clickhouse true none (.ok true) (.ok (some 5))
        [Chunk.mk ["a"] [[1]]] =
      ⟨[], .error "timestamp_column must be specified when incremental=True"⟩ :=
  load_incremental_requires_timestamp_column none (.ok true) (.ok (some 5))
    [Chunk.mk ["a"] [[1]]] rfl

/-- Helper: a predicate and its boolean negation count all elements. -/
theorem countP_with_not_eq_length (p : List Int → Bool) (l : List (List Int)) :
    l.countP p + l.countP (fun a => !p a) = l.length := by
  induction l with
  | nil => rfl
  | cons a l ih =>
    simp only [List.countP_cons, List.length_cons]
    cases h : p a
    · simp [h]
      omega
    · simp [h]
      omega

/-- Helper: at-most is the boolean negation of strictly-above. -/
theorem decide_le_eq_not_decide_lt (T x : Int) :
    decide (x ≤ T) = !decide (T < x) := by
  by_cases h : T < x
  · simp [h, not_le.mpr h]
  · simp [h, not_lt.mp h]

/-- Helper: rows dropped by the watermark filter are exactly the rows at
or below the watermark. -/
theorem filter_drop_count (T : Int) (tcol : String) (ch : Chunk) :
    ch.rows.length -
        (ch.rows.filter (fun r => decide (T < chunkTs ch.cols tcol r))).length =
      ch.rows.countP (fun r => decide (chunkTs ch.cols tcol r ≤ T)) := by
  rw [← List.countP_eq_length_filter]
  have hfun : (fun r => decide (chunkTs ch.cols tcol r ≤ T)) =
      (fun r => !decide (T < chunkTs ch.cols tcol r)) := by
    funext r
    exact decide_le_eq_not_decide_lt T (chunkTs ch.cols tcol r)
  rw [hfun]
  have h := countP_with_not_eq_length
    (fun r => decide (T < chunkTs ch.cols tcol r)) ch.rows
  omega

/-- Helper: the chunk loop under incremental mode with a present watermark
and the timestamp column present in every chunk inserts exactly the rows
strictly above the watermark and counts the rest as skipped. -/
theorem runChunks_watermark (T : Int) (tcol : String) (chunks : List Chunk)
    (hcol : ∀ ch ∈ chunks, ch.cols.contains tcol = true) :
    (runChunks true (some T) tcol chunks).1 = (newRows T tcol chunks).length ∧
    (runChunks true (some T) tcol chunks).2.1 = staleCount T tcol chunks ∧
    insertedRows (runChunks true (some T) tcol chunks).2.2 = newRows T tcol chunks := by
  induction chunks with
  | nil => exact ⟨rfl, rfl, rfl⟩
  | cons ch cs ih =>
    have hch : ch.cols.contains tcol = true := hcol ch (by simp)
    obtain ⟨ih1, ih2, ih3⟩ := ih (fun c hc => hcol c (List.mem_cons_of_mem ch hc))
    have hpc : processChunk true (some T) tcol ch =
        (ch.rows.filter (fun r => decide (T < chunkTs ch.cols tcol r)),
         ch.rows.length -
           (ch.rows.filter (fun r => decide (T < chunkTs ch.cols tcol r))).length) := by
      unfold processChunk
      rw [if_pos (show (true && (some T).isSome && ch.cols.contains tcol) = true by
        rw [hch]; rfl)]
      rfl
    simp only [runChunks, hpc, newRows, staleCount]
    by_cases hemp :
        (ch.rows.filter (fun r => decide (T < chunkTs ch.cols tcol r))).isEmpty = true
    · rw [if_pos hemp]
      have hnil : ch.rows.filter (fun r => decide (T < chunkTs ch.cols tcol r)) = [] :=
        List.isEmpty_iff.mp hemp
      refine ⟨?_, ?_, ?_⟩
      · rw [hnil, ih1, List.nil_append]
      · rw [ih2, filter_drop_count]
      · rw [hnil, ih3, List.nil_append]
    · rw [if_neg hemp]
      refine ⟨?_, ?_, ?_⟩
      · rw [ih1, List.length_append]
      · rw [ih2, filter_drop_count]
      · simp only [insertedRows, ih3]

/-- C1: in incremental mode, when the target table exists and the
watermark query returns a non-null timestamp T, the loader inserts
exactly those CSV rows whose timestamp is strictly greater than T (the
inserted-row sequence over all batches equals the subsequence of rows
above T), and the skipped-rows counter equals the number of rows with
timestamp at most T; those rows appear in no insert event.  Hypotheses:
a nonempty timestamp column name and each chunk carrying that column (the
filter at line 178 applies only then; the missing-column case is the
subject of the separate missing-column theorem). -/
theorem load_incremental_inserts_exactly_new_rows
    (tcol : String) (T : Int) (chunks : List Chunk)
    (htcol : tcol.isEmpty = false)
    (hcol : ∀ ch ∈ chunks, ch.cols.contains tcol = true) :
    insertedRows
        (load_csv_to_clickhouse true (some tcol) (.ok true) (.ok (some T)) chunks).events
      = newRows T tcol chunks ∧
    (load_csv_to_clickhouse true (some tcol) (.ok true) (.ok (some T)) chunks).result
      = .ok ((newRows T tcol chunks).length, staleCount T tcol chunks) := by
  obtain ⟨h1, h2, h3⟩ := runChunks_watermark T tcol chunks hcol
  unfold load_csv_to_clickhouse
  rw [if_neg (show ¬(true && tsColMissing (some tcol)) = true by
    simp [tsColMissing, htcol])]
  constructor
  · show insertedRows (DbEvent.existsQuery :: DbEvent.maxQuery ::
        (runChunks true (some T) tcol chunks).2.2) = newRows T tcol chunks
    simp only [insertedRows]
    exact h3
  · show Except.ok ((runChunks true (some T) tcol chunks).1,
        (runChunks true (some T) tcol chunks).2.1) =
      Except.ok ((newRows T tcol chunks).length, staleCount T tcol chunks)
    rw [h1, h2]

/-- Witness for load_incremental_inserts_exactly_new_rows: one chunk with
timestamps 1, 2, 3 and watermark 1 inserts the two newer rows and skips
one. -/
theorem load_incremental_inserts_exactly_new_rows_witness :
    insertedRows
        (load_csv_to_clickhouse true (some "ts") (.ok true) (.ok (some 1))
          [Chunk.mk ["ts", "v"] [[1, 10], [2, 20], [3, 30]]]).events
      = newRows 1 "ts" [Chunk.mk ["ts", "v"] [[1, 10], [2, 20], [3, 30]]] ∧
    (load_csv_to_clickhouse true (some "ts") (.ok true) (.ok (some 1))
          [Chunk.mk ["ts", "v"] [[1, 10], [2, 20], [3, 30]]]).result
      = .ok ((newRows 1 "ts" [Chunk.mk ["ts", "v"] [[1, 10], [2, 20], [3, 30]]]).length,
             staleCount 1 "ts" [Chunk.mk ["ts", "v"] [[1, 10], [2, 20], [3, 30]]]) :=
  load_incremental_inserts_exactly_new_rows "ts" 1
    [Chunk.mk ["ts", "v"] [[1, 10], [2, 20], [3, 30]]] (by decide) (by decide)

/-- Helper: the chunk loop under incremental mode with a present watermark
but the timestamp column absent from every chunk inserts every row and
skips none. -/
theorem runChunks_nocolumn (T : Int) (tcol : String) (chunks : List Chunk)
    (hcol : ∀ ch ∈ chunks, ch.cols.contains tcol = false) :
    (runChunks true (some T) tcol chunks).1 = (allChunkRows chunks).length ∧
    (runChunks true (some T) tcol chunks).2.1 = 0 ∧
    insertedRows (runChunks true (some T) tcol chunks).2.2 = allChunkRows chunks := by
  induction chunks with
  | nil => exact ⟨rfl, rfl, rfl⟩
  | cons ch cs ih =>
    have hch : ch.cols.contains tcol = false := hcol ch (by simp)
    obtain ⟨ih1, ih2, ih3⟩ := ih (fun c hc => hcol c (List.mem_cons_of_mem ch hc))
    have hpc : processChunk true (some T) tcol ch = (ch.rows, 0) := by
      unfold processChunk
      rw [if_neg (show ¬(true && (some T).isSome && ch.cols.contains tcol) = true by
        rw [hch]; simp)]
    simp only [runChunks, hpc, allChunkRows]
    by_cases hemp : ch.rows.isEmpty = true
    · rw [if_pos hemp]
      have hnil : ch.rows = [] := List.isEmpty_iff.mp hemp
      refine ⟨?_, ?_, ?_⟩
      · rw [hnil, ih1, List.nil_append]
      · rw [ih2]
      · rw [hnil, ih3, List.nil_append]
    · rw [if_neg hemp]
      refine ⟨?_, ?_, ?_⟩
      · rw [ih1, List.length_append]
      · rw [ih2]
      · simp only [insertedRows, ih3]

/-- C9: in incremental mode with a non-null watermark, when the
configured timestamp column is absent from the chunk columns, the
membership test at line 178 fails, so no filtering happens: every row of
every chunk is inserted, the skipped-rows counter stays 0, and the run
completes without error (the only warning point, the watermark query,
succeeded here) — the absence of the column is silently ignored. -/
theorem load_incremental_missing_column_loads_all
    (tcol : String) (T : Int) (chunks : List Chunk)
    (htcol : tcol.isEmpty = false)
    (hcol : ∀ ch ∈ chunks, ch.cols.contains tcol = false) :
    insertedRows
        (load_csv_to_clickhouse true (some tcol) (.ok true) (.ok (some T)) chunks).events
      = allChunkRows chunks ∧
    (load_csv_to_clickhouse true (some tcol) (.ok true) (.ok (some T)) chunks).result
      = .ok ((allChunkRows chunks).length, 0) := by
  obtain ⟨h1, h2, h3⟩ := runChunks_nocolumn T tcol chunks hcol
  unfold load_csv_to_clickhouse
  rw [if_neg (show ¬(true && tsColMissing (some tcol)) = true by
    simp [tsColMissing, htcol])]
  constructor
  · show insertedRows (DbEvent.existsQuery :: DbEvent.maxQuery ::
        (runChunks true (some T) tcol chunks).2.2) = allChunkRows chunks
    simp only [insertedRows]
    exact h3
  · show Except.ok ((runChunks true (some T) tcol chunks).1,
        (runChunks true (some T) tcol chunks).2.1) =
      Except.ok ((allChunkRows chunks).length, 0)
    rw [h1, h2]

/-- Witness for load_incremental_missing_column_loads_all: a chunk whose
columns do not include the timestamp column has both rows inserted and
none skipped. -/
theorem load_incremental_missing_column_loads_all_witness :
    insertedRows
        (load_csv_to_clickhouse true (some "ts") (.ok true) (.ok (some 1))
          [Chunk.mk ["a", "b"] [[1, 10], [2, 20]]]).events
      = allChunkRows [Chunk.mk ["a", "b"] [[1, 10], [2, 20]]] ∧
    (load_csv_to_clickhouse true (some "ts") (.ok true) (.ok (some 1))
          [Chunk.mk ["a", "b"] [[1, 10], [2, 20]]]).result
      = .ok ((allChunkRows [Chunk.mk ["a", "b"] [[1, 10], [2, 20]]]).length, 0) :=
  load_incremental_missing_column_loads_all "ts" 1
    [Chunk.mk ["a", "b"] [[1, 10], [2, 20]]] (by decide) (by decide)

/- ================= src/ingest.py : extract_to_df and clean_dataframe ================= -/

/-- Tabular value manipulated by the ingestion pipeline: column labels
and rows of cells; a cell is none for NaN.  Column labels are kept as
strings (pandas integer labels are written as their digit strings). -/
structure DataFrame where
  cols : List String
  rows : List (List (Option String))
deriving DecidableEq, Repr

/-- Stringification of a cell, as pandas astype(str) renders it: NaN
becomes the string nan. -/
def cellStr : Option String → String
  | none => "nan"
  | some s => s

/-- Match of the regular expression of one or more leading digits used at
src/ingest.py line 83 (str.match anchors at the start). -/
def startsWithDigit (s : String) : Bool :=
  match s.data with
  | [] => false
  | c :: _ => c.isDigit

/-- Match of the single-uppercase-letter regular expression used at
src/ingest.py line 89. -/
def isSingleUpper (s : String) : Bool :=
  match s.data with
  | [c] => c.isUpper
  | _ => false

/-- Degenerate-row test of src/ingest.py line 98: all cells stringify to
one value (nunique over the stringified row equals 1, so an empty row is
not degenerate). -/
def allSameStr (r : List (Option String)) : Bool :=
  match r.map cellStr with
  | [] => false
  | c :: cs => cs.all (fun x => x == c)

/-- Outcome of the requests.get call in extract_to_df: a network failure
(RequestException, including raise_for_status) or a fetched page carrying
the list of tables BeautifulSoup finds in it. -/
inductive FetchOutcome where
  | netError
  | page (tables : List DataFrame)
deriving Repr

/-- Embedding of extract_to_df (src/ingest.py lines 34-68): a network
error is logged and re-raised (line 65); a page without tables returns an
empty DataFrame (line 50); otherwise the first table is returned. -/
def extract_to_df : FetchOutcome → Except String DataFrame
  | .netError => .error "RequestException"
  | .page [] => .ok (DataFrame.mk [] [])
  | .page (t :: _) => .ok t

/-- Step (a) of clean_dataframe, dropna(how='all') at line 77: drop rows
whose cells are all null. -/
def dropEmptyRows (df : DataFrame) : DataFrame :=
  ⟨df.cols, df.rows.filter (fun r => !r.all (fun c => c.isNone))⟩

/-- Step (a) continued, dropna(axis=1, how='all') at line 77: drop the
columns that are null in every remaining row. -/
def dropEmptyCols (df : DataFrame) : DataFrame :=
  let keptIdx := (List.range df.cols.length).filter
    (fun j => df.rows.any (fun r => (r.getD j none).isSome))
  ⟨keptIdx.map (fun j => df.cols.getD j ""),
   df.rows.map (fun r => keptIdx.map (fun j => r.getD j none))⟩

/-- Step (b) of clean_dataframe, lines 82-85: when every value of the
first column starts with a digit the column is a spreadsheet row index
and df.iloc[:, 1:] removes it. -/
def dropIndexColumn (df : DataFrame) : DataFrame :=
  if (df.rows.map (fun r => r.getD 0 none)).all (fun v => startsWithDigit (cellStr v)) then
    ⟨df.cols.drop 1, df.rows.map (fun r => r.drop 1)⟩
  else df

/-- Step (c) of clean_dataframe, lines 89-92: when fewer than half the
first-row values are single uppercase letters (a strict comparison
against len(df.columns) / 2) and the first row is not entirely null, the
first row becomes the column labels and is removed from the data. -/
def promoteHeader (df : DataFrame) : DataFrame :=
  if decide (2 * (df.rows.getD 0 []).countP (fun v => isSingleUpper (cellStr v)) <
       df.cols.length) &&
     !(df.rows.getD 0 []).all (fun c => c.isNone) then
    ⟨(df.rows.getD 0 []).map cellStr, df.rows.drop 1⟩
  else df

/-- Whitespace stripping from both ends of a string, as Python str.strip
does (src/ingest.py line 95). -/
def pyStrip (s : String) : String :=
  String.mk (((s.data.dropWhile Char.isWhitespace).reverse.dropWhile
    Char.isWhitespace).reverse)

/-- Step (d) of clean_dataframe, line 95: stringify the column labels and
strip surrounding whitespace. -/
def stripColNames (df : DataFrame) : DataFrame :=
  ⟨df.cols.map (fun c => pyStrip c), df.rows⟩

/-- Step (e) of clean_dataframe, line 98: drop degenerate rows. -/
def dropDegenerateRows (df : DataFrame) : DataFrame :=
  ⟨df.cols, df.rows.filter (fun r => !allSameStr r)⟩

/-- Embedding of clean_dataframe (src/ingest.py lines 71-109), the steps
in source order.  The print at line 79 evaluates df.iloc[0] and raises
IndexError when the dropna steps leave no row, and df.iloc[:, 0] at line
82 raises IndexError when they leave no column; the except clause at line
107 re-raises, so those inputs yield an error. -/
def clean_dataframe (df : DataFrame) : Except String DataFrame :=
  let df1 := dropEmptyCols (dropEmptyRows df)
  if df1.rows.isEmpty then .error "IndexError"
  else if df1.cols.isEmpty then .error "IndexError"
  else .ok (dropDegenerateRows (stripColNames (promoteHeader (dropIndexColumn df1))))

/- ================= theorems: C5, C2 ================= -/

/-- C5: the sheet extraction returns the empty table (and does not raise)
when the fetched page contains no table element, while a network or fetch
error is re-raised as an error (so a fetch error never yields an empty
table: its result is an error, not an ok value). -/
theorem extract_to_df_spec :
    extract_to_df (.page []) = .ok (DataFrame.mk [] []) ∧
    extract_to_df .netError = .error "RequestException" :=
  ⟨rfl, rfl⟩

/-- Input refuting idempotence of the cleaning step: a table whose header
row is promoted by the first application.  Its cleaned form has first data
row (ab, cd), fewer than half of whose cells are single uppercase
letters, so a second application promotes that row too and yields a
different table. -/
def cleanTwiceInput : DataFrame :=
  ⟨["0", "1"],
   [[some "Name", some "Age"], [some "ab", some "cd"], [some "ef", some "gh"]]⟩

/-- C2 counterexample: applying clean_dataframe to its own output does
not yield the same table as applying it once: on cleanTwiceInput the
first application returns a two-row table with promoted header (Name,
Age), and the second application promotes the first data row again,
returning a different one-row table. -/
theorem clean_dataframe_not_idempotent :
    clean_dataframe cleanTwiceInput =
      .ok (DataFrame.mk ["Name", "Age"]
        [[some "ab", some "cd"], [some "ef", some "gh"]]) ∧
    clean_dataframe (DataFrame.mk ["Name", "Age"]
        [[some "ab", some "cd"], [some "ef", some "gh"]]) =
      .ok (DataFrame.mk ["ab", "cd"] [[some "ef", some "gh"]]) ∧
    DataFrame.mk ["ab", "cd"] [[some "ef", some "gh"]] ≠
      DataFrame.mk ["Name", "Age"]
        [[some "ab", some "cd"], [some "ef", some "gh"]] :=
  ⟨by rfl, by rfl, by decide⟩

/-- Already-clean tables in the sense forced by the counterexample: a
nonempty well-formed table with no all-null row or column, whose first
column does not consist entirely of leading-digit values, whose first row
blocks header promotion (at least half its cells are single uppercase
letters), whose column labels carry no surrounding whitespace, and with
no degenerate row.  On such tables every step of clean_dataframe is the
identity. -/
def isCleanShape (t : DataFrame) : Bool :=
  !t.rows.isEmpty &&
  !t.cols.isEmpty &&
  t.rows.all (fun r => r.length == t.cols.length) &&
  t.rows.all (fun r => !r.all (fun c => c.isNone)) &&
  (List.range t.cols.length).all (fun j => t.rows.any (fun r => (r.getD j none).isSome)) &&
  !(t.rows.map (fun r => r.getD 0 none)).all (fun v => startsWithDigit (cellStr v)) &&
  !decide (2 * (t.rows.getD 0 []).countP (fun v => isSingleUpper (cellStr v)) <
    t.cols.length) &&
  t.cols.all (fun c => pyStrip c == c) &&
  t.rows.all (fun r => !allSameStr r)

/-- Helper: reading a list back by positional lookup over its index range
reproduces the list. -/
theorem map_getD_range {α : Type} (l : List α) (d : α) :
    (List.range l.length).map (fun j => l.getD j d) = l := by
  induction l with
  | nil => rfl
  | cons a l ih =>
    rw [List.length_cons, List.range_succ_eq_map, List.map_cons, List.map_map]
    have h2 : ((fun j => (a :: l).getD j d) ∘ Nat.succ) = (fun j => l.getD j d) := by
      funext j
      rfl
    rw [h2, ih]
    rfl

/-- C2 amended: cleaning is idempotent only on tables of clean shape in
the sense of isCleanShape; on such a table every step of clean_dataframe
is the identity, so one (and hence a second) application returns the
table unchanged.  Without the promotion-blocking condition a second
application promotes the first data row to header, as the counterexample
shows. -/
theorem clean_dataframe_idempotent_on_clean_shape (t : DataFrame)
    (h : isCleanShape t = true) :
    clean_dataframe t = .ok t := by
  simp only [isCleanShape, Bool.and_eq_true] at h
  obtain ⟨⟨⟨⟨⟨⟨⟨⟨h1, h2⟩, h3⟩, h4⟩, h5⟩, h6⟩, h7⟩, h8⟩, h9⟩ := h
  have hrne : t.rows.isEmpty = false := by
    cases hx : t.rows.isEmpty
    · rfl
    · rw [hx] at h1
      exact absurd h1 (by decide)
  have hcne : t.cols.isEmpty = false := by
    cases hx : t.cols.isEmpty
    · rfl
    · rw [hx] at h2
      exact absurd h2 (by decide)
  have hder : dropEmptyRows t = t := by
    unfold dropEmptyRows
    rw [List.filter_eq_self.mpr (List.all_eq_true.mp h4)]
  have hdec : dropEmptyCols t = t := by
    simp only [dropEmptyCols]
    rw [List.filter_eq_self.mpr (List.all_eq_true.mp h5)]
    rw [map_getD_range]
    have hrows : t.rows.map
        (fun r => (List.range t.cols.length).map (fun j => r.getD j none)) = t.rows := by
      have hc : ∀ r ∈ t.rows,
          (List.range t.cols.length).map (fun j => r.getD j none) = id r := by
        intro r hr
        have hl : r.length = t.cols.length :=
          eq_of_beq (List.all_eq_true.mp h3 r hr)
        rw [← hl]
        exact map_getD_range r none
      rw [List.map_congr_left hc, List.map_id]
    rw [hrows]
  have hx6 : (t.rows.map (fun r => r.getD 0 none)).all
      (fun v => startsWithDigit (cellStr v)) = false := by
    cases hx : (t.rows.map (fun r => r.getD 0 none)).all
        (fun v => startsWithDigit (cellStr v))
    · rfl
    · rw [hx] at h6
      exact absurd h6 (by decide)
  have hdic : dropIndexColumn t = t := by
    unfold dropIndexColumn
    rw [if_neg (fun hC => by rw [hC] at hx6; exact absurd hx6 (by decide))]
  have hx7 : decide (2 * (t.rows.getD 0 []).countP
      (fun v => isSingleUpper (cellStr v)) < t.cols.length) = false := by
    cases hx : decide (2 * (t.rows.getD 0 []).countP
        (fun v => isSingleUpper (cellStr v)) < t.cols.length)
    · rfl
    · rw [hx] at h7
      exact absurd h7 (by decide)
  have hph : promoteHeader t = t := by
    unfold promoteHeader
    rw [if_neg (fun hC => by
      have hd := (Bool.and_eq_true _ _).mp hC
      rw [hd.1] at hx7
      exact absurd hx7 (by decide))]
  have hscn : stripColNames t = t := by
    unfold stripColNames
    have hmap : t.cols.map (fun c => pyStrip c) = t.cols := by
      have hc : ∀ c ∈ t.cols, pyStrip c = id c := by
        intro c hcm
        exact eq_of_beq (List.all_eq_true.mp h8 c hcm)
      rw [List.map_congr_left hc, List.map_id]
    rw [hmap]
  have hddr : dropDegenerateRows t = t := by
    unfold dropDegenerateRows
    rw [List.filter_eq_self.mpr (List.all_eq_true.mp h9)]
  simp only [clean_dataframe, hder, hdec]
  rw [if_neg (by simp [hrne]), if_neg (by simp [hcne])]
  rw [hdic, hph, hscn, hddr]

/-- Witness for clean_dataframe_idempotent_on_clean_shape: a one-row
table whose first row has half its cells single uppercase letters is
returned unchanged. -/
theorem clean_dataframe_idempotent_on_clean_shape_witness :
    clean_dataframe (DataFrame.mk ["Name", "Age"] [[some "A", some "b"]]) =
      .ok (DataFrame.mk ["Name", "Age"] [[some "A", some "b"]]) :=
  clean_dataframe_idempotent_on_clean_shape
    (DataFrame.mk ["Name", "Age"] [[some "A", some "b"]]) (by decide)
